import Mathlib

/-!
Verification of the SPIFFS WebAssembly bindings of this repository.

The shallow embedding below follows `spiffs_wasm.c` (the emscripten glue:
`spiffsjs_hal_read` / `spiffsjs_hal_write` / `spiffsjs_hal_erase`,
`spiffsjs_configure`, `spiffsjs_mount`, `spiffsjs_init_from_image`,
`spiffsjs_format`, `spiffsjs_file_size`, `spiffsjs_read_file`,
`spiffsjs_write_file`, `spiffsjs_remove_file`, `spiffsjs_list`,
`spiffsjs_get_usage`, `spiffsjs_can_fit`, `spiffsjs_export_image`),
`spiffs_config.h` (the garbage-collection heuristic weights) and the
TypeScript client `src/ts/spiffs/index.ts` (`SpiffsClient.read`).

The vendored SPIFFS core (`SPIFFS_mount`, `SPIFFS_format`, `SPIFFS_open`,
`SPIFFS_read`, `SPIFFS_write`, `SPIFFS_remove`, `SPIFFS_info`,
`SPIFFS_readdir`) lives in `third_party/` and is not part of the sources
here; wherever a definition depends on it, the definition carries a doc
comment starting with `Modelled from the spec:` and follows the
specification's description of the core (a flat object namespace mapping
bounded-length names to byte contents, persisted in the raw backing image,
with a magic marker distinguishing a formatted volume from erased flash).

Bytes are modelled as `Nat` (values < 256 in well-formed states), machine
integers as `Nat`/`Int` with explicit `% 2^32` where 32-bit overflow
matters, and C return codes as `Int`.
-/

/-- Modelled from the spec: error codes of the vendored `spiffs.h` (not under
the sources here). Only distinctness and sign matter to the theorems. -/
def SPIFFS_OK : Int := 0

/-- Modelled from the spec: the distinct not-mounted error code. -/
def SPIFFS_ERR_NOT_MOUNTED : Int := -10000

/-- Modelled from the spec: out-of-space error code. -/
def SPIFFS_ERR_FULL : Int := -10001

/-- Modelled from the spec: missing-object error code. -/
def SPIFFS_ERR_NOT_FOUND : Int := -10002

/-- Modelled from the spec: not-configured error code. -/
def SPIFFS_ERR_NOT_CONFIGURED : Int := -10024

/-- Modelled from the spec: mount found no recognizable filesystem. -/
def SPIFFS_ERR_NOT_A_FS : Int := -10025

/-- Modelled from the spec: oversized-name error code. -/
def SPIFFS_ERR_NAME_TOO_LONG : Int := -10036

/-- Modelled from the spec: internal error code (also used by the glue for
bad buffers and out-of-range accesses). -/
def SPIFFS_ERR_INTERNAL : Int := -10050

/-- Modelled from the spec: a directory where a file was required. -/
def SPIFFS_ERR_NOT_A_FILE : Int := -10031

/-- `UINT32_MAX` of the C sources. -/
def UINT32_MAX : Nat := 4294967295

/-- Volume geometry as supplied to `spiffsjs_configure`. -/
structure SpiffsGeom where
  pageSize : Nat
  blockSize : Nat
  blockCount : Nat
deriving DecidableEq

/-- Total number of backing-storage bytes: `block_size * block_count`
(`g_total_bytes` of the glue). -/
def totalBytes (g : SpiffsGeom) : Nat := g.blockSize * g.blockCount

/-- A file of the flat object namespace: name bytes paired with data bytes. -/
abbrev SpiffsFile := List Nat × List Nat

/-- Little-endian 4-byte encoding of a 32-bit length. -/
def le32 (n : Nat) : List Nat :=
  [n % 256, n / 256 % 256, n / 65536 % 256, n / 16777216 % 256]

/-- Read back a little-endian 4-byte length, returning the remainder. -/
def readLE32 (bs : List Nat) : Option (Nat × List Nat) :=
  match bs with
  | b0 :: b1 :: b2 :: b3 :: rest =>
      some (b0 + 256 * b1 + 65536 * b2 + 16777216 * b3, rest)
  | _ => none

/-- Modelled from the spec: the on-flash record of one object — a marker
byte, the name length, the name bytes, the 4-byte data length and the data
bytes (the spec's index-page-zero carries name, size and data locations). -/
def encodeFile (f : SpiffsFile) : List Nat :=
  1 :: f.1.length :: (f.1 ++ le32 f.2.length ++ f.2)

/-- Modelled from the spec: concatenation of all object records. -/
def encodeFiles (fs : List SpiffsFile) : List Nat :=
  fs.foldr (fun f acc => encodeFile f ++ acc) []

/-- Modelled from the spec: magic constant plus version byte at the start of
a formatted volume, so mount can distinguish a filesystem from erased or
foreign data. -/
def spiffsMagic : List Nat := [181, 31, 1]

/-- Number of meaningful bytes of the encoded image: magic, records and the
terminator byte. -/
def imageLen (fs : List SpiffsFile) : Nat := 4 + (encodeFiles fs).length

/-- Modelled from the spec: serialize the object namespace into a raw image
of exactly `totalBytes g` bytes, padding the log's free tail with the
all-ones erased pattern. -/
def encodeImage (g : SpiffsGeom) (fs : List SpiffsFile) : List Nat :=
  let body := spiffsMagic ++ encodeFiles fs ++ [0]
  body ++ List.replicate (totalBytes g - body.length) 255

/-- Modelled from the spec: parse the object records back out of the image
body; `fuel` bounds the recursion. -/
def decodeFiles (fuel : Nat) (bs : List Nat) : Option (List SpiffsFile) :=
  match fuel, bs with
  | _, 0 :: _ => some []
  | Nat.succ f, 1 :: nl :: rest =>
      if nl ≤ rest.length then
        let name := rest.take nl
        match readLE32 (rest.drop nl) with
        | some (dl, rest2) =>
            if dl ≤ rest2.length then
              match decodeFiles f (rest2.drop dl) with
              | some fs => some ((name, rest2.take dl) :: fs)
              | none => none
            else none
        | none => none
      else none
  | _, _ => none

/-- Modelled from the spec: what `SPIFFS_mount` recovers from a raw backing
image of geometry `g`. A fully erased (all-ones) image of the right size
mounts as an empty volume; an image starting with the magic marker is
parsed; anything else is not a filesystem. -/
def decodeImage (g : SpiffsGeom) (bs : List Nat) : Option (List SpiffsFile) :=
  if bs.length = totalBytes g then
    if bs.all (· = 255) then some []
    else if bs.take 3 = spiffsMagic then decodeFiles (totalBytes g) (bs.drop 3)
    else none
  else none

/-- Name lookup: linear scan of the object namespace (the spec's name lookup
is a linear scan of live index-page-zero entries). -/
def fsLookup (fs : List SpiffsFile) (name : List Nat) : Option (List Nat) :=
  (fs.find? (fun f => f.1 = name)).map (fun f => f.2)

/-- Modelled from the spec: effect of `SPIFFS_open` with
`SPIFFS_CREAT | SPIFFS_TRUNC` followed by writing `data` — replace the
content of an existing object of that name, or append a new object. -/
def fsUpdate (fs : List SpiffsFile) (name data : List Nat) : List SpiffsFile :=
  if fs.any (fun f => f.1 = name) then
    fs.map (fun f => if f.1 = name then (name, data) else f)
  else fs ++ [(name, data)]

/-- Modelled from the spec: effect of `SPIFFS_remove` — drop the object. -/
def fsRemove (fs : List SpiffsFile) (name : List Nat) : List SpiffsFile :=
  fs.filter (fun f => ¬ f.1 = name)

/-- Well-formedness of an object namespace: names are nonempty and respect
`SPIFFS_OBJ_NAME_LEN` (32), data lengths fit in 32 bits. -/
def fsWf (fs : List SpiffsFile) : Prop :=
  ∀ f ∈ fs, 0 < f.1.length ∧ f.1.length ≤ 32 ∧ f.2.length < 4294967296

instance (fs : List SpiffsFile) : Decidable (fsWf fs) := by
  unfold fsWf; infer_instance

/-- The global state of the glue (`g_storage`, `g_page_size`, `g_block_size`,
`g_block_count`, `g_disk_ready`, `g_is_mounted`). `storage = none` models the
NULL pointer. -/
structure SpiffsState where
  storage : Option (List Nat)
  pageSize : Nat
  blockSize : Nat
  blockCount : Nat
  diskReady : Bool
  isMounted : Bool
deriving DecidableEq

/-- The geometry currently configured in the glue's globals. -/
def SpiffsState.geom (st : SpiffsState) : SpiffsGeom :=
  ⟨st.pageSize, st.blockSize, st.blockCount⟩

/-- State after `spiffsjs_release`: everything freed and zeroed. -/
def initState : SpiffsState :=
  { storage := none, pageSize := 0, blockSize := 0, blockCount := 0,
    diskReady := false, isMounted := false }

/-- Overwrite `bytes[addr ... addr+data.length)` with `data` (the `memcpy`
of `spiffsjs_hal_write`). -/
def listOverwrite (bytes : List Nat) (addr : Nat) (data : List Nat) : List Nat :=
  bytes.take addr ++ data ++ bytes.drop (addr + data.length)

/-- `spiffsjs_hal_read`: bounds-checked copy out of the backing storage. -/
def spiffsjs_hal_read (st : SpiffsState) (addr size : Nat) : Int × Option (List Nat) :=
  match st.storage with
  | none => (SPIFFS_ERR_INTERNAL, none)
  | some bytes =>
      if addr + size > bytes.length then (SPIFFS_ERR_INTERNAL, none)
      else (SPIFFS_OK, some ((bytes.drop addr).take size))

/-- `spiffsjs_hal_write`: bounds-checked `memcpy` of `data` into the backing
storage at `addr`. Note the source copies the programmed bytes verbatim; it
does not AND them with the previous contents. -/
def spiffsjs_hal_write (st : SpiffsState) (addr : Nat) (data : List Nat) :
    SpiffsState × Int :=
  match st.storage with
  | none => (st, SPIFFS_ERR_INTERNAL)
  | some bytes =>
      if addr + data.length > bytes.length then (st, SPIFFS_ERR_INTERNAL)
      else ({ st with storage := some (listOverwrite bytes addr data) }, SPIFFS_OK)

/-- `spiffsjs_hal_erase`: bounds-checked `memset` of the range to `0xFF`. -/
def spiffsjs_hal_erase (st : SpiffsState) (addr size : Nat) : SpiffsState × Int :=
  match st.storage with
  | none => (st, SPIFFS_ERR_INTERNAL)
  | some bytes =>
      if addr + size > bytes.length then (st, SPIFFS_ERR_INTERNAL)
      else ({ st with storage := some (listOverwrite bytes addr (List.replicate size 255)) },
            SPIFFS_OK)

/-- `spiffsjs_configure`: validates the geometry exactly as the C source
does — zero dimensions, `block_size < page_size`, `block_size` not a
multiple of `page_size`, `block_size < page_size * 8` computed in 32-bit
arithmetic (the multiplication wraps modulo `2^32`), and
`block_size * block_count > UINT32_MAX` (computed in 64-bit arithmetic,
exact here) — then releases any previous volume and allocates fresh
all-ones storage. `SPIFFS_buffer_bytes_for_filedescs` is modelled as zero
exactly when `fd_count` is zero, in which case the source releases and
fails. Allocation itself is modelled as always succeeding. -/
def spiffsjs_configure (st : SpiffsState)
    (page_size block_size block_count fd_count cache_pages : Nat) :
    SpiffsState × Int :=
  if page_size = 0 ∨ block_size = 0 ∨ block_count = 0 then
    (st, SPIFFS_ERR_NOT_CONFIGURED)
  else if block_size < page_size ∨ block_size % page_size ≠ 0 then
    (st, SPIFFS_ERR_INTERNAL)
  else if block_size < (page_size * 8) % 4294967296 then
    (st, SPIFFS_ERR_INTERNAL)
  else if block_size * block_count > UINT32_MAX then
    (st, SPIFFS_ERR_INTERNAL)
  else if fd_count = 0 then (initState, SPIFFS_ERR_INTERNAL)
  else
    ({ storage := some (List.replicate (block_size * block_count) 255),
       pageSize := page_size, blockSize := block_size,
       blockCount := block_count, diskReady := true, isMounted := false }, 0)

/-- `spiffsjs_mount`: mounting requires a configured disk; the mounted view
of the storage is `decodeImage` (Modelled from the spec: the core's
`SPIFFS_mount`). If the image does not decode and `allow_format` is set,
the volume is formatted (an empty image is written) and mounted again. -/
def spiffsjs_mount (st : SpiffsState) (allow_format : Bool) : SpiffsState × Int :=
  if !st.diskReady then (st, SPIFFS_ERR_NOT_CONFIGURED)
  else
    match st.storage with
    | none => (st, SPIFFS_ERR_NOT_CONFIGURED)
    | some bytes =>
        match decodeImage st.geom bytes with
        | some _ => ({ st with isMounted := true }, 0)
        | none =>
            if allow_format then
              let bytes2 := encodeImage st.geom []
              match decodeImage st.geom bytes2 with
              | some _ => ({ st with storage := some bytes2, isMounted := true }, 0)
              | none =>
                  ({ st with storage := some bytes2, isMounted := false },
                   SPIFFS_ERR_NOT_A_FS)
            else ({ st with isMounted := false }, SPIFFS_ERR_NOT_A_FS)

/-- `spiffsjs_init`: configure then mount with format fallback; a failed
mount releases everything. -/
def spiffsjs_init (st : SpiffsState)
    (page_size block_size block_count fd_count cache_pages : Nat) :
    SpiffsState × Int :=
  let r := spiffsjs_configure st page_size block_size block_count fd_count
    cache_pages
  if r.2 ≠ 0 then r
  else
    let r2 := spiffsjs_mount r.1 true
    if r2.2 ≠ 0 then (initState, r2.2) else (r2.1, 0)

/-- `spiffsjs_init_from_image`: configure, then require the image length to
equal the configured `g_total_bytes = block_size * block_count` (release and
fail otherwise), copy the image over the fresh storage and mount without
formatting; a failed mount releases everything. -/
def spiffsjs_init_from_image (st : SpiffsState)
    (page_size block_size block_count fd_count cache_pages : Nat)
    (image : List Nat) : SpiffsState × Int :=
  let r := spiffsjs_configure st page_size block_size block_count fd_count
    cache_pages
  if r.2 ≠ 0 then r
  else if image.length ≠ block_size * block_count then
    (initState, SPIFFS_ERR_NOT_CONFIGURED)
  else
    let r2 := spiffsjs_mount { r.1 with storage := some image } false
    if r2.2 ≠ 0 then (initState, r2.2) else (r2.1, 0)

/-- The object namespace currently visible through the mounted core
(Modelled from the spec: the core's view is a function of the raw storage). -/
def mountedFiles (st : SpiffsState) : Option (List SpiffsFile) :=
  match st.storage with
  | none => none
  | some bytes => decodeImage st.geom bytes

/-- `spiffsjs_format`: requires a mounted volume; unmounts, formats
(`SPIFFS_format` writes a fresh empty image — Modelled from the spec), then
the glue `memset`s the whole backing storage back to `0xFF` and remounts
without the format fallback; a failed remount releases everything. -/
def spiffsjs_format (st : SpiffsState) : SpiffsState × Int :=
  if !st.isMounted then (st, SPIFFS_ERR_NOT_MOUNTED)
  else
    match st.storage with
    | none => (st, SPIFFS_ERR_NOT_CONFIGURED)
    | some _ =>
        let stFmt := { st with isMounted := false,
                               storage := some (encodeImage st.geom []) }
        let stWiped := { stFmt with
                         storage := some (List.replicate (totalBytes st.geom) 255) }
        let r := spiffsjs_mount stWiped false
        if r.2 ≠ 0 then (initState, r.2) else (r.1, 0)

/-- `spiffsjs_file_size`: stat the path and return its size, or the error.
All objects of the model are plain files, so the `SPIFFS_TYPE_DIR` branch of
the source never fires here. -/
def spiffsjs_file_size (st : SpiffsState) (name : List Nat) : Int :=
  if !st.isMounted then SPIFFS_ERR_NOT_MOUNTED
  else
    match mountedFiles st with
    | none => SPIFFS_ERR_NOT_A_FS
    | some fs =>
        match fsLookup fs name with
        | none => SPIFFS_ERR_NOT_FOUND
        | some data => (data.length : Int)

/-- `spiffsjs_read_file`: stat, reject a buffer smaller than the file, then
read the whole content in `SPIFFSJS_MAX_READ_CHUNK` chunks (the chunk loop
collapses to returning the content — Modelled from the spec: `SPIFFS_read`
reads the object's bytes sequentially). Returns the byte count and the data
read. A zero-length buffer is rejected exactly as the source rejects
`buffer_ptr == 0 || buffer_len == 0`. -/
def spiffsjs_read_file (st : SpiffsState) (name : List Nat) (buffer_len : Nat) :
    Int × Option (List Nat) :=
  if !st.isMounted then (SPIFFS_ERR_NOT_MOUNTED, none)
  else if buffer_len = 0 then (SPIFFS_ERR_NOT_CONFIGURED, none)
  else
    match mountedFiles st with
    | none => (SPIFFS_ERR_NOT_A_FS, none)
    | some fs =>
        match fsLookup fs name with
        | none => (SPIFFS_ERR_NOT_FOUND, none)
        | some data =>
            if data.length > buffer_len then (SPIFFS_ERR_INTERNAL, none)
            else ((data.length : Int), some data)

/-- `spiffsjs_write_file`: open with `SPIFFS_CREAT | SPIFFS_TRUNC |
SPIFFS_RDWR` and write the whole payload in chunks (Modelled from the spec:
the core replaces the object's content; an oversized name fails with
`SPIFFS_ERR_NAME_TOO_LONG`; a payload the volume cannot hold fails with
`SPIFFS_ERR_FULL` leaving the state unchanged). -/
def spiffsjs_write_file (st : SpiffsState) (name data : List Nat) :
    SpiffsState × Int :=
  if !st.isMounted then (st, SPIFFS_ERR_NOT_MOUNTED)
  else
    match mountedFiles st with
    | none => (st, SPIFFS_ERR_NOT_A_FS)
    | some fs =>
        if name.length = 0 ∨ 32 < name.length then (st, SPIFFS_ERR_NAME_TOO_LONG)
        else
          let fs2 := fsUpdate fs name data
          if imageLen fs2 ≤ totalBytes st.geom then
            ({ st with storage := some (encodeImage st.geom fs2) }, 0)
          else (st, SPIFFS_ERR_FULL)

/-- `spiffsjs_remove_file`: `SPIFFS_remove` on the path (Modelled from the
spec: removing a missing object fails with `SPIFFS_ERR_NOT_FOUND`). -/
def spiffsjs_remove_file (st : SpiffsState) (name : List Nat) :
    SpiffsState × Int :=
  if !st.isMounted then (st, SPIFFS_ERR_NOT_MOUNTED)
  else
    match mountedFiles st with
    | none => (st, SPIFFS_ERR_NOT_A_FS)
    | some fs =>
        match fsLookup fs name with
        | none => (st, SPIFFS_ERR_NOT_FOUND)
        | some _ =>
            ({ st with storage := some (encodeImage st.geom (fsRemove fs name)) }, 0)

/-- Decimal digit count of `n`, the length `snprintf("%lu")` produces. -/
def decLen (n : Nat) : Nat := if n = 0 then 1 else Nat.log 10 n + 1

/-- Bytes one directory entry occupies in the list buffer:
`name \t "file" \t size \n`. -/
def listEntryLen (f : SpiffsFile) : Nat := f.1.length + 1 + 4 + 1 + decLen f.2.length + 1

/-- Total bytes the rendered listing occupies. -/
def listRenderLen (fs : List SpiffsFile) : Nat :=
  fs.foldr (fun f acc => listEntryLen f + acc) 0

/-- `spiffsjs_list` (via `spiffsjs_list_inner`): requires a mounted volume
and a nonempty buffer, renders every entry (failing with
`SPIFFS_ERR_INTERNAL` when the rendering plus its terminator would overflow
the buffer) and returns the rendered byte count together with the entries
`(name, size)` (Modelled from the spec: `SPIFFS_readdir` iterates the live
objects). -/
def spiffsjs_list (st : SpiffsState) (buffer_len : Nat) :
    Int × List (List Nat × Nat) :=
  if !st.isMounted then (SPIFFS_ERR_NOT_MOUNTED, [])
  else if buffer_len = 0 then (SPIFFS_ERR_INTERNAL, [])
  else
    match mountedFiles st with
    | none => (SPIFFS_ERR_NOT_MOUNTED, [])
    | some fs =>
        if listRenderLen fs + 1 ≤ buffer_len then
          ((listRenderLen fs : Int), fs.map (fun f => (f.1, f.2.length)))
        else (SPIFFS_ERR_INTERNAL, [])

/-- Modelled from the spec: the capacity `SPIFFS_info` reports is a function
of the geometry alone. -/
def spiffsInfoTotal (g : SpiffsGeom) : Nat := totalBytes g

/-- Modelled from the spec: the used-byte count `SPIFFS_info` reports sums
every object's data rounded up to whole pages. -/
def spiffsInfoUsed (g : SpiffsGeom) (fs : List SpiffsFile) : Nat :=
  fs.foldr (fun f acc => (f.2.length + g.pageSize - 1) / g.pageSize * g.pageSize + acc) 0

/-- `spiffsjs_get_usage`: `SPIFFS_info` plus the glue's clamped
`free = total > used ? total - used : 0`, written as the triple
`(total, used, free)`. -/
def spiffsjs_get_usage (st : SpiffsState) : Int × (Nat × Nat × Nat) :=
  if !st.isMounted then (SPIFFS_ERR_NOT_MOUNTED, (0, 0, 0))
  else
    match mountedFiles st with
    | none => (SPIFFS_ERR_NOT_A_FS, (0, 0, 0))
    | some fs =>
        let total := spiffsInfoTotal st.geom
        let used := spiffsInfoUsed st.geom fs
        (0, (total, used, if total > used then total - used else 0))

/-- `spiffsjs_can_fit`: `1` when `length` fits in the free bytes reported by
`SPIFFS_info`, `0` otherwise. -/
def spiffsjs_can_fit (st : SpiffsState) (name : List Nat) (length : Nat) : Int :=
  if !st.isMounted then SPIFFS_ERR_NOT_MOUNTED
  else
    match mountedFiles st with
    | none => SPIFFS_ERR_NOT_A_FS
    | some fs =>
        let total := spiffsInfoTotal st.geom
        let used := spiffsInfoUsed st.geom fs
        let free := if total > used then total - used else 0
        if length ≤ free then 1 else 0

/-- `spiffsjs_export_image`: copies the whole backing storage out, provided
a volume is configured and the destination buffer is large enough. -/
def spiffsjs_export_image (st : SpiffsState) (buffer_len : Nat) :
    Int × Option (List Nat) :=
  match st.storage with
  | none => (SPIFFS_ERR_NOT_CONFIGURED, none)
  | some bytes =>
      if bytes.length = 0 then (SPIFFS_ERR_NOT_CONFIGURED, none)
      else if buffer_len < bytes.length then (SPIFFS_ERR_INTERNAL, none)
      else ((bytes.length : Int), some bytes)

/-- `SpiffsClient.read` of the TypeScript binding: stat first, short-circuit
empty files to an empty array without touching the C read path, otherwise
read into a buffer of exactly the stat size. `none` models a thrown
`SpiffsError`. -/
def spiffsClientRead (st : SpiffsState) (name : List Nat) : Option (List Nat) :=
  let size := spiffsjs_file_size st name
  if size < 0 then none
  else if size = 0 then some []
  else (spiffsjs_read_file st name size.toNat).2

/-- `SPIFFS_GC_HEUR_W_DELET` of `spiffs_config.h`. -/
def SPIFFS_GC_HEUR_W_DELET : Int := 5

/-- `SPIFFS_GC_HEUR_W_USED` of `spiffs_config.h`. -/
def SPIFFS_GC_HEUR_W_USED : Int := -1

/-- `SPIFFS_GC_HEUR_W_ERASE_AGE` of `spiffs_config.h`. -/
def SPIFFS_GC_HEUR_W_ERASE_AGE : Int := 50

/-- Modelled from the spec: the garbage collector's block score
`W_deleted * deletedPages + W_used * usedPages + W_eraseAge *
(currentGeneration - blockEraseAge)`, with the configured weights. -/
def spiffsGcBlockScore (deletedPages usedPages eraseAgeDiff : Int) : Int :=
  SPIFFS_GC_HEUR_W_DELET * deletedPages + SPIFFS_GC_HEUR_W_USED * usedPages +
    SPIFFS_GC_HEUR_W_ERASE_AGE * eraseAgeDiff

theorem readLE32_le32 (n : Nat) (rest : List Nat) (h : n < 4294967296) :
    readLE32 (le32 n ++ rest) = some (n, rest) := by
  simp only [le32, readLE32, List.cons_append, List.nil_append]
  have hn : n % 256 + 256 * (n / 256 % 256) + 65536 * (n / 65536 % 256) +
      16777216 * (n / 16777216 % 256) = n := by omega
  rw [hn]

theorem decodeFiles_zero (fuel : Nat) (rest : List Nat) :
    decodeFiles fuel (0 :: rest) = some [] := by
  cases fuel <;> rfl

theorem decodeFiles_encodeFiles (fs : List SpiffsFile) :
    ∀ (fuel : Nat) (rest : List Nat), fs.length ≤ fuel → fsWf fs →
      decodeFiles fuel (encodeFiles fs ++ 0 :: rest) = some fs := by
  induction fs with
  | nil =>
      intro fuel rest _ _
      simpa [encodeFiles] using decodeFiles_zero fuel rest
  | cons f fs ih =>
      intro fuel rest hlen hwf
      obtain ⟨f', rfl⟩ : ∃ f', fuel = f' + 1 :=
        ⟨fuel - 1, by simp at hlen; omega⟩
      have hwfThis := hwf f (by simp)
      have hwfRest : fsWf fs := fun x hx => hwf x (List.mem_cons_of_mem _ hx)
      have hbytes :
          encodeFiles (f :: fs) ++ 0 :: rest =
            1 :: f.1.length ::
              (f.1 ++ (le32 f.2.length ++ (f.2 ++ (encodeFiles fs ++ 0 :: rest)))) := by
        simp [encodeFiles, encodeFile, List.append_assoc]
      rw [hbytes]
      show decodeFiles (f' + 1)
          (1 :: f.1.length ::
            (f.1 ++ (le32 f.2.length ++ (f.2 ++ (encodeFiles fs ++ 0 :: rest))))) = _
      rw [decodeFiles]
      have htake : (f.1 ++ (le32 f.2.length ++ (f.2 ++ (encodeFiles fs ++ 0 :: rest)))).take
          f.1.length = f.1 := List.take_left _ _
      have hdrop : (f.1 ++ (le32 f.2.length ++ (f.2 ++ (encodeFiles fs ++ 0 :: rest)))).drop
          f.1.length = le32 f.2.length ++ (f.2 ++ (encodeFiles fs ++ 0 :: rest)) :=
        List.drop_left _ _
      have hle : f.1.length ≤
          (f.1 ++ (le32 f.2.length ++ (f.2 ++ (encodeFiles fs ++ 0 :: rest)))).length := by
        simp
      rw [if_pos hle, hdrop, readLE32_le32 _ _ hwfThis.2.2]
      have htake2 : (f.2 ++ (encodeFiles fs ++ 0 :: rest)).take f.2.length = f.2 :=
        List.take_left _ _
      have hdrop2 : (f.2 ++ (encodeFiles fs ++ 0 :: rest)).drop f.2.length =
          encodeFiles fs ++ 0 :: rest := List.drop_left _ _
      have hle2 : f.2.length ≤ (f.2 ++ (encodeFiles fs ++ 0 :: rest)).length := by simp
      simp only [if_pos hle2, hdrop2, htake2, htake]
      rw [ih f' rest (by simp at hlen; omega) hwfRest]

theorem length_le_encodeFiles (fs : List SpiffsFile) :
    fs.length ≤ (encodeFiles fs).length := by
  induction fs with
  | nil => simp [encodeFiles]
  | cons f fs ih =>
      have h1 : encodeFiles (f :: fs) = encodeFile f ++ encodeFiles fs := rfl
      rw [h1, List.length_append, List.length_cons]
      have h2 : 1 ≤ (encodeFile f).length := by simp [encodeFile]
      omega

theorem encodeImage_eq (g : SpiffsGeom) (fs : List SpiffsFile) :
    encodeImage g fs =
      181 :: 31 :: 1 ::
        (encodeFiles fs ++ 0 :: List.replicate (totalBytes g - imageLen fs) 255) := by
  simp only [encodeImage, spiffsMagic, imageLen]
  simp [List.append_assoc, List.length_append]
  congr 1
  omega

theorem length_encodeImage (g : SpiffsGeom) (fs : List SpiffsFile)
    (h : imageLen fs ≤ totalBytes g) :
    (encodeImage g fs).length = totalBytes g := by
  rw [encodeImage_eq]
  simp only [List.length_cons, List.length_append, List.length_replicate]
  simp only [imageLen] at h ⊢
  omega

theorem decodeImage_encodeImage (g : SpiffsGeom) (fs : List SpiffsFile)
    (hwf : fsWf fs) (hfit : imageLen fs ≤ totalBytes g) :
    decodeImage g (encodeImage g fs) = some fs := by
  have hlen := length_encodeImage g fs hfit
  rw [decodeImage, if_pos hlen, encodeImage_eq]
  have hall : (181 :: 31 :: 1 ::
      (encodeFiles fs ++ 0 :: List.replicate (totalBytes g - imageLen fs) 255)).all
      (· = 255) = false := by simp
  rw [hall]
  simp only [Bool.false_eq_true, if_false, List.take_succ_cons, List.take_zero,
    List.drop_succ_cons, List.drop_zero]
  rw [if_pos (show ([181, 31, 1] : List Nat) = spiffsMagic from rfl)]
  exact decodeFiles_encodeFiles fs (totalBytes g) _
    (le_trans (length_le_encodeFiles fs) (by simp only [imageLen] at hfit; omega)) hwf

theorem decodeImage_replicate (g : SpiffsGeom) :
    decodeImage g (List.replicate (totalBytes g) 255) = some [] := by
  rw [decodeImage, if_pos (by simp)]
  have hall : (List.replicate (totalBytes g) 255).all (· = 255) = true := by
    rw [List.all_eq_true]
    intro x hx
    simpa using List.eq_of_mem_replicate hx
  rw [hall]
  simp

theorem fsLookup_fsUpdate (fs : List SpiffsFile) (name data : List Nat) :
    fsLookup (fsUpdate fs name data) name = some data := by
  rw [fsUpdate]
  by_cases hany : fs.any (fun f => f.1 = name) = true
  · rw [if_pos hany]
    induction fs with
    | nil => simp at hany
    | cons f fs ih =>
        rw [List.map_cons]
        by_cases hf : f.1 = name
        · rw [if_pos hf]
          simp [fsLookup]
        · rw [if_neg hf]
          have hany' : fs.any (fun f => f.1 = name) = true := by
            simp only [List.any_cons, Bool.or_eq_true, decide_eq_true_eq] at hany
            exact hany.resolve_left hf
          have hrec := ih hany'
          rw [fsLookup, List.find?_cons_of_neg _ (by simpa using hf)]
          exact hrec
  · rw [if_neg hany]
    have hnone : fs.find? (fun f => decide (f.1 = name)) = none := by
      rw [List.find?_eq_none]
      intro x hx hpx
      exact hany (List.any_eq_true.mpr ⟨x, hx, hpx⟩)
    rw [fsLookup, List.find?_append, hnone]
    simp [List.find?]

theorem fsWf_fsUpdate (fs : List SpiffsFile) (name data : List Nat)
    (hwf : fsWf fs) (hn0 : 0 < name.length) (hn32 : name.length ≤ 32)
    (hd : data.length < 4294967296) :
    fsWf (fsUpdate fs name data) := by
  intro f hf
  rw [fsUpdate] at hf
  by_cases hany : fs.any (fun f => f.1 = name) = true
  · rw [if_pos hany] at hf
    obtain ⟨x, hx, hfx⟩ := List.mem_map.mp hf
    by_cases hx1 : x.1 = name
    · rw [if_pos hx1] at hfx
      subst hfx
      exact ⟨hn0, hn32, hd⟩
    · rw [if_neg hx1] at hfx
      subst hfx
      exact hwf x hx
  · rw [if_neg hany] at hf
    rcases List.mem_append.mp hf with hf | hf
    · exact hwf f hf
    · rcases List.mem_singleton.mp hf with rfl
      exact ⟨hn0, hn32, hd⟩

theorem fsWf_fsRemove (fs : List SpiffsFile) (name : List Nat) (hwf : fsWf fs) :
    fsWf (fsRemove fs name) :=
  fun f hf => hwf f (List.mem_of_mem_filter hf)

theorem listOverwrite_length (bytes : List Nat) (addr : Nat) (data : List Nat)
    (h : addr + data.length ≤ bytes.length) :
    (listOverwrite bytes addr data).length = bytes.length := by
  simp only [listOverwrite, List.length_append, List.length_take, List.length_drop]
  omega

theorem listOverwrite_get_lt (bytes : List Nat) (addr : Nat) (data : List Nat)
    (h : addr + data.length ≤ bytes.length) (i : Nat) (hi : i < addr) :
    (listOverwrite bytes addr data)[i]? = bytes[i]? := by
  rw [listOverwrite, List.append_assoc,
    List.getElem?_append_left (by simp only [List.length_take]; omega),
    List.getElem?_take_of_lt hi]

theorem listOverwrite_get_in (bytes : List Nat) (addr : Nat) (data : List Nat)
    (h : addr + data.length ≤ bytes.length) (i : Nat) (hlo : addr ≤ i)
    (hhi : i < addr + data.length) :
    (listOverwrite bytes addr data)[i]? = data[i - addr]? := by
  rw [listOverwrite, List.append_assoc]
  rw [List.getElem?_append_right (by simp only [List.length_take]; omega)]
  rw [List.getElem?_append_left (by simp only [List.length_take]; omega)]
  congr 1
  simp only [List.length_take]
  omega

theorem listOverwrite_get_ge (bytes : List Nat) (addr : Nat) (data : List Nat)
    (h : addr + data.length ≤ bytes.length) (i : Nat)
    (hi : addr + data.length ≤ i) :
    (listOverwrite bytes addr data)[i]? = bytes[i]? := by
  rw [listOverwrite, List.append_assoc]
  rw [List.getElem?_append_right (by simp only [List.length_take]; omega)]
  rw [List.getElem?_append_right (by simp only [List.length_take, List.length_append]; omega)]
  rw [List.getElem?_drop]
  congr 1
  simp only [List.length_take, List.length_append]
  omega

theorem spiffsjs_hal_write_eq (st : SpiffsState) (bytes : List Nat) (addr : Nat)
    (data : List Nat) (hs : st.storage = some bytes)
    (hb : addr + data.length ≤ bytes.length) :
    spiffsjs_hal_write st addr data =
      ({ st with storage := some (listOverwrite bytes addr data) }, SPIFFS_OK) := by
  unfold spiffsjs_hal_write
  rw [hs]
  simp only []
  rw [if_neg (by omega)]

theorem spiffsjs_hal_erase_eq (st : SpiffsState) (bytes : List Nat)
    (addr size : Nat) (hs : st.storage = some bytes)
    (hb : addr + size ≤ bytes.length) :
    spiffsjs_hal_erase st addr size =
      ({ st with
         storage := some (listOverwrite bytes addr (List.replicate size 255)) },
       SPIFFS_OK) := by
  unfold spiffsjs_hal_erase
  rw [hs]
  dsimp only
  rw [if_neg (by omega)]

/-- Claim C1 (counterexample): `spiffsjs_hal_write` is a verbatim `memcpy`,
not an AND-accumulating flash program. Programming the byte `0xFF` over a
stored `0x00` succeeds and leaves the byte `0xFF`, although the bitwise AND
of the previous and written values is `0x00`: a bit transitions from 0 back
to 1, refuting the claim that stored bits may only transition 1 to 0. -/
theorem spiffsjs_hal_write_not_and_counterexample :
    (spiffsjs_hal_write
        { storage := some [0], pageSize := 1, blockSize := 8, blockCount := 1,
          diskReady := true, isMounted := true } 0 [255]).2 = SPIFFS_OK ∧
    (spiffsjs_hal_write
        { storage := some [0], pageSize := 1, blockSize := 8, blockCount := 1,
          diskReady := true, isMounted := true } 0 [255]).1.storage = some [255] ∧
    Nat.land 0 255 = 0 ∧ (255 : Nat) ≠ Nat.land 0 255 := by
  refine ⟨by decide, by decide, by decide, by decide⟩

/-- Claim C1 (amended): a successful `spiffsjs_hal_write` overwrites the
programmed range with the written bytes verbatim — each byte of the range
afterwards equals the corresponding written byte regardless of its previous
value (so the AND semantics of NOR flash holds only when the range was
erased to all-ones beforehand, and bits can also transition 0 to 1) — and
leaves every byte outside the range unchanged. -/
theorem spiffsjs_hal_write_program_semantics (st : SpiffsState)
    (bytes : List Nat) (addr : Nat) (data : List Nat)
    (hs : st.storage = some bytes) (hb : addr + data.length ≤ bytes.length) :
    (spiffsjs_hal_write st addr data).2 = SPIFFS_OK ∧
    ∃ bytes2, (spiffsjs_hal_write st addr data).1.storage = some bytes2 ∧
      bytes2.length = bytes.length ∧
      (∀ i, addr ≤ i → i < addr + data.length → bytes2[i]? = data[i - addr]?) ∧
      (∀ i, i < addr → bytes2[i]? = bytes[i]?) ∧
      (∀ i, addr + data.length ≤ i → bytes2[i]? = bytes[i]?) := by
  rw [spiffsjs_hal_write_eq st bytes addr data hs hb]
  refine ⟨rfl, listOverwrite bytes addr data, rfl,
    listOverwrite_length bytes addr data hb,
    fun i hlo hhi => listOverwrite_get_in bytes addr data hb i hlo hhi,
    fun i hi => listOverwrite_get_lt bytes addr data hb i hi,
    fun i hi => listOverwrite_get_ge bytes addr data hb i hi⟩

/-- Witness for the amended C1 theorem at a concrete input. -/
theorem spiffsjs_hal_write_program_semantics_witness :
    (spiffsjs_hal_write
        { storage := some [7, 7, 7], pageSize := 1, blockSize := 8,
          blockCount := 1, diskReady := true, isMounted := true }
        1 [9]).2 = SPIFFS_OK ∧
    ∃ bytes2,
      (spiffsjs_hal_write
          { storage := some [7, 7, 7], pageSize := 1, blockSize := 8,
            blockCount := 1, diskReady := true, isMounted := true }
          1 [9]).1.storage = some bytes2 ∧
      bytes2.length = ([7, 7, 7] : List Nat).length ∧
      (∀ i, 1 ≤ i → i < 1 + ([9] : List Nat).length →
        bytes2[i]? = ([9] : List Nat)[i - 1]?) ∧
      (∀ i, i < 1 → bytes2[i]? = ([7, 7, 7] : List Nat)[i]?) ∧
      (∀ i, 1 + ([9] : List Nat).length ≤ i →
        bytes2[i]? = ([7, 7, 7] : List Nat)[i]?) :=
  spiffsjs_hal_write_program_semantics
    { storage := some [7, 7, 7], pageSize := 1, blockSize := 8, blockCount := 1,
      diskReady := true, isMounted := true } [7, 7, 7] 1 [9] rfl (by decide)

/-- Claim C6: a successful `spiffsjs_hal_erase` resets every byte of the
erased range to `0xFF` and changes no byte outside the range. -/
theorem spiffsjs_hal_erase_resets_to_ones (st : SpiffsState) (bytes : List Nat)
    (addr size : Nat) (hs : st.storage = some bytes)
    (hb : addr + size ≤ bytes.length) :
    (spiffsjs_hal_erase st addr size).2 = SPIFFS_OK ∧
    ∃ bytes2, (spiffsjs_hal_erase st addr size).1.storage = some bytes2 ∧
      bytes2.length = bytes.length ∧
      (∀ i, addr ≤ i → i < addr + size → bytes2[i]? = some 255) ∧
      (∀ i, i < addr → bytes2[i]? = bytes[i]?) ∧
      (∀ i, addr + size ≤ i → bytes2[i]? = bytes[i]?) := by
  rw [spiffsjs_hal_erase_eq st bytes addr size hs hb]
  have hb' : addr + (List.replicate size (255 : Nat)).length ≤ bytes.length := by
    simp only [List.length_replicate]; omega
  refine ⟨rfl, listOverwrite bytes addr (List.replicate size 255), rfl,
    listOverwrite_length bytes addr _ hb', ?_, ?_, ?_⟩
  · intro i hlo hhi
    rw [listOverwrite_get_in bytes addr _ hb' i hlo
      (by simp only [List.length_replicate]; omega)]
    rw [List.getElem?_replicate]
    rw [if_pos (by omega)]
  · intro i hi
    exact listOverwrite_get_lt bytes addr _ hb' i hi
  · intro i hi
    exact listOverwrite_get_ge bytes addr _ hb' i
      (by simp only [List.length_replicate]; omega)

/-- Witness for the C6 theorem at a concrete input. -/
theorem spiffsjs_hal_erase_resets_to_ones_witness :
    (spiffsjs_hal_erase
        { storage := some [1, 2, 3, 4], pageSize := 1, blockSize := 8,
          blockCount := 1, diskReady := true, isMounted := true } 1 2).2 = SPIFFS_OK ∧
    ∃ bytes2,
      (spiffsjs_hal_erase
          { storage := some [1, 2, 3, 4], pageSize := 1, blockSize := 8,
            blockCount := 1, diskReady := true, isMounted := true } 1 2).1.storage
        = some bytes2 ∧
      bytes2.length = ([1, 2, 3, 4] : List Nat).length ∧
      (∀ i, 1 ≤ i → i < 1 + 2 → bytes2[i]? = some 255) ∧
      (∀ i, i < 1 → bytes2[i]? = ([1, 2, 3, 4] : List Nat)[i]?) ∧
      (∀ i, 1 + 2 ≤ i → bytes2[i]? = ([1, 2, 3, 4] : List Nat)[i]?) :=
  spiffsjs_hal_erase_resets_to_ones
    { storage := some [1, 2, 3, 4], pageSize := 1, blockSize := 8,
      blockCount := 1, diskReady := true, isMounted := true } [1, 2, 3, 4] 1 2
    rfl (by decide)

/-- Claim C7: the configured garbage-collection weights realize the stated
heuristic — the deleted-page weight (5) and erase-age weight (50) are
positive, the used-page weight (−1) is negative, and the block score is
strictly increasing in the deleted-page count and in the erase-age
difference and strictly decreasing in the used-page count. -/
theorem spiffs_gc_weights_realize_heuristic :
    0 < SPIFFS_GC_HEUR_W_DELET ∧ SPIFFS_GC_HEUR_W_USED < 0 ∧
    0 < SPIFFS_GC_HEUR_W_ERASE_AGE ∧
    (∀ d1 d2 u a : Int, d1 < d2 →
      spiffsGcBlockScore d1 u a < spiffsGcBlockScore d2 u a) ∧
    (∀ d u a1 a2 : Int, a1 < a2 →
      spiffsGcBlockScore d u a1 < spiffsGcBlockScore d u a2) ∧
    (∀ d u1 u2 a : Int, u1 < u2 →
      spiffsGcBlockScore d u2 a < spiffsGcBlockScore d u1 a) := by
  refine ⟨by norm_num [SPIFFS_GC_HEUR_W_DELET],
    by norm_num [SPIFFS_GC_HEUR_W_USED],
    by norm_num [SPIFFS_GC_HEUR_W_ERASE_AGE], ?_, ?_, ?_⟩ <;>
    · intro x1 x2 x3 x4 hlt
      simp only [spiffsGcBlockScore, SPIFFS_GC_HEUR_W_DELET, SPIFFS_GC_HEUR_W_USED,
        SPIFFS_GC_HEUR_W_ERASE_AGE]
      omega

/-- Witness for the C7 theorem at concrete weights and counters. -/
theorem spiffs_gc_weights_realize_heuristic_witness :
    spiffsGcBlockScore 1 7 2 < spiffsGcBlockScore 3 7 2 ∧
    spiffsGcBlockScore 1 7 2 < spiffsGcBlockScore 1 7 5 ∧
    spiffsGcBlockScore 1 9 2 < spiffsGcBlockScore 1 7 2 :=
  ⟨spiffs_gc_weights_realize_heuristic.2.2.2.1 1 3 7 2 (by norm_num),
   spiffs_gc_weights_realize_heuristic.2.2.2.2.1 1 7 2 5 (by norm_num),
   spiffs_gc_weights_realize_heuristic.2.2.2.2.2 1 7 9 2 (by norm_num)⟩

/-- Claim C8: with no volume mounted, every exported filesystem operation —
format, file size, read, write, remove, list, usage and the can-fit probe —
returns the distinct not-mounted error code (different from success and
from the other error codes surfaced by these paths) and leaves the state,
including the backing storage and configured geometry, unchanged. -/
theorem spiffs_ops_reject_when_not_mounted (st : SpiffsState)
    (h : st.isMounted = false) (name data : List Nat) (blen len : Nat) :
    spiffsjs_format st = (st, SPIFFS_ERR_NOT_MOUNTED) ∧
    spiffsjs_file_size st name = SPIFFS_ERR_NOT_MOUNTED ∧
    spiffsjs_read_file st name blen = (SPIFFS_ERR_NOT_MOUNTED, none) ∧
    spiffsjs_write_file st name data = (st, SPIFFS_ERR_NOT_MOUNTED) ∧
    spiffsjs_remove_file st name = (st, SPIFFS_ERR_NOT_MOUNTED) ∧
    spiffsjs_list st blen = (SPIFFS_ERR_NOT_MOUNTED, []) ∧
    spiffsjs_get_usage st = (SPIFFS_ERR_NOT_MOUNTED, (0, 0, 0)) ∧
    spiffsjs_can_fit st name len = SPIFFS_ERR_NOT_MOUNTED ∧
    SPIFFS_ERR_NOT_MOUNTED ≠ SPIFFS_OK ∧
    SPIFFS_ERR_NOT_MOUNTED ≠ SPIFFS_ERR_NOT_FOUND ∧
    SPIFFS_ERR_NOT_MOUNTED ≠ SPIFFS_ERR_NOT_CONFIGURED ∧
    SPIFFS_ERR_NOT_MOUNTED ≠ SPIFFS_ERR_INTERNAL ∧
    SPIFFS_ERR_NOT_MOUNTED ≠ SPIFFS_ERR_FULL ∧
    SPIFFS_ERR_NOT_MOUNTED ≠ SPIFFS_ERR_NOT_A_FS := by
  refine ⟨?_, ?_, ?_, ?_, ?_, ?_, ?_, ?_, by decide, by decide, by decide,
    by decide, by decide, by decide⟩ <;>
    simp [spiffsjs_format, spiffsjs_file_size, spiffsjs_read_file,
      spiffsjs_write_file, spiffsjs_remove_file, spiffsjs_list,
      spiffsjs_get_usage, spiffsjs_can_fit, h]

/-- Witness for the C8 theorem at a concrete unmounted state. -/
theorem spiffs_ops_reject_when_not_mounted_witness :
    spiffsjs_format initState = (initState, SPIFFS_ERR_NOT_MOUNTED) ∧
    spiffsjs_file_size initState [97] = SPIFFS_ERR_NOT_MOUNTED ∧
    spiffsjs_read_file initState [97] 16 = (SPIFFS_ERR_NOT_MOUNTED, none) ∧
    spiffsjs_write_file initState [97] [1, 2] = (initState, SPIFFS_ERR_NOT_MOUNTED) ∧
    spiffsjs_remove_file initState [97] = (initState, SPIFFS_ERR_NOT_MOUNTED) ∧
    spiffsjs_list initState 16 = (SPIFFS_ERR_NOT_MOUNTED, []) ∧
    spiffsjs_get_usage initState = (SPIFFS_ERR_NOT_MOUNTED, (0, 0, 0)) ∧
    spiffsjs_can_fit initState [97] 8 = SPIFFS_ERR_NOT_MOUNTED ∧
    SPIFFS_ERR_NOT_MOUNTED ≠ SPIFFS_OK ∧
    SPIFFS_ERR_NOT_MOUNTED ≠ SPIFFS_ERR_NOT_FOUND ∧
    SPIFFS_ERR_NOT_MOUNTED ≠ SPIFFS_ERR_NOT_CONFIGURED ∧
    SPIFFS_ERR_NOT_MOUNTED ≠ SPIFFS_ERR_INTERNAL ∧
    SPIFFS_ERR_NOT_MOUNTED ≠ SPIFFS_ERR_FULL ∧
    SPIFFS_ERR_NOT_MOUNTED ≠ SPIFFS_ERR_NOT_A_FS :=
  spiffs_ops_reject_when_not_mounted initState rfl [97] [1, 2] 16 8

theorem spiffsjs_configure_cases (st : SpiffsState) (ps bs bc fd cp : Nat) :
    spiffsjs_configure st ps bs bc fd cp = (st, SPIFFS_ERR_NOT_CONFIGURED) ∨
    spiffsjs_configure st ps bs bc fd cp = (st, SPIFFS_ERR_INTERNAL) ∨
    spiffsjs_configure st ps bs bc fd cp = (initState, SPIFFS_ERR_INTERNAL) ∨
    spiffsjs_configure st ps bs bc fd cp =
      ({ storage := some (List.replicate (bs * bc) 255), pageSize := ps,
         blockSize := bs, blockCount := bc, diskReady := true,
         isMounted := false }, 0) := by
  unfold spiffsjs_configure
  split_ifs <;> simp

/-- Claim C4: starting from the pristine (released) state —
`createSpiffsFromImage` always instantiates a fresh module — initialization
from an image whose byte length differs from `blockSize * blockCount` of the
supplied geometry returns a nonzero error and leaves no volume configured
or mounted: the resulting state is the released state with no storage. -/
theorem spiffs_init_from_image_rejects_size_mismatch
    (ps bs bc fd cp : Nat) (image : List Nat)
    (h : image.length ≠ bs * bc) :
    (spiffsjs_init_from_image initState ps bs bc fd cp image).2 ≠ 0 ∧
    (spiffsjs_init_from_image initState ps bs bc fd cp image).1 = initState := by
  unfold spiffsjs_init_from_image
  rcases spiffsjs_configure_cases initState ps bs bc fd cp with hc | hc | hc | hc <;>
    rw [hc] <;>
    simp [SPIFFS_ERR_NOT_CONFIGURED, SPIFFS_ERR_INTERNAL, h]

/-- Witness for the C4 theorem at a concrete mismatched image. -/
theorem spiffs_init_from_image_rejects_size_mismatch_witness :
    (spiffsjs_init_from_image initState 256 4096 2 16 64 []).2 ≠ 0 ∧
    (spiffsjs_init_from_image initState 256 4096 2 16 64 []).1 = initState :=
  spiffs_init_from_image_rejects_size_mismatch 256 4096 2 16 64 [] (by decide)

/-- Claim C10 (counterexample): the `block_size < page_size * 8` check of
`spiffsjs_configure` is computed in 32-bit arithmetic, so it wraps for
`page_size = 2^29`: configuring `page_size = block_size = 2^29` with one
block succeeds although the block size is mathematically smaller than
8 × page size, refuting the claim that configuration always fails then. -/
theorem spiffs_configure_sub8x_overflow_counterexample :
    (spiffsjs_configure initState 536870912 536870912 1 16 64).2 = 0 ∧
    (536870912 : Nat) < 8 * 536870912 := by
  refine ⟨rfl, by norm_num⟩

/-- Claim C10 (amended): configuration fails with a nonzero error and leaves
the glue state untouched whenever `pageSize`, `blockSize` or `blockCount` is
zero, `blockSize < pageSize`, `blockSize` is not a multiple of `pageSize`,
`blockSize` is smaller than `pageSize * 8` computed modulo `2^32` (the
32-bit wrap of the C source), or `blockSize * blockCount` exceeds
`2^32 − 1`. -/
theorem spiffs_configure_rejects_invalid_geometry (st : SpiffsState)
    (ps bs bc fd cp : Nat)
    (h : ps = 0 ∨ bs = 0 ∨ bc = 0 ∨ bs < ps ∨ bs % ps ≠ 0 ∨
         bs < ps * 8 % 4294967296 ∨ bs * bc > UINT32_MAX) :
    (spiffsjs_configure st ps bs bc fd cp).2 ≠ 0 ∧
    (spiffsjs_configure st ps bs bc fd cp).1 = st := by
  unfold spiffsjs_configure
  split_ifs with h1 h2 h3 h4 h5
  · exact ⟨by norm_num [SPIFFS_ERR_NOT_CONFIGURED], rfl⟩
  · exact ⟨by norm_num [SPIFFS_ERR_INTERNAL], rfl⟩
  · exact ⟨by norm_num [SPIFFS_ERR_INTERNAL], rfl⟩
  · exact ⟨by norm_num [SPIFFS_ERR_INTERNAL], rfl⟩
  · exact absurd h (by tauto)
  · exact absurd h (by tauto)

/-- Witness for the amended C10 theorem at a concrete invalid geometry. -/
theorem spiffs_configure_rejects_invalid_geometry_witness :
    (spiffsjs_configure initState 0 4096 4 16 64).2 ≠ 0 ∧
    (spiffsjs_configure initState 0 4096 4 16 64).1 = initState :=
  spiffs_configure_rejects_invalid_geometry initState 0 4096 4 16 64
    (Or.inl rfl)

theorem spiffsjs_write_file_eq (st : SpiffsState) (fs : List SpiffsFile)
    (name data : List Nat) (hm : st.isMounted = true)
    (hfs : mountedFiles st = some fs)
    (hn0 : 0 < name.length) (hn32 : name.length ≤ 32)
    (hfit : imageLen (fsUpdate fs name data) ≤ totalBytes st.geom) :
    spiffsjs_write_file st name data =
      ({ st with storage := some (encodeImage st.geom (fsUpdate fs name data)) },
       0) := by
  unfold spiffsjs_write_file
  rw [hm, hfs]
  simp only [Bool.not_true, Bool.false_eq_true, if_false]
  rw [if_neg (by omega), if_pos hfit]

theorem mountedFiles_encodeImage (st : SpiffsState) (fs : List SpiffsFile)
    (hwf : fsWf fs) (hfit : imageLen fs ≤ totalBytes st.geom) :
    mountedFiles { st with storage := some (encodeImage st.geom fs) } = some fs := by
  unfold mountedFiles
  exact decodeImage_encodeImage st.geom fs hwf hfit

theorem spiffsjs_file_size_eq (st : SpiffsState) (fs : List SpiffsFile)
    (name data : List Nat) (hm : st.isMounted = true)
    (hfs : mountedFiles st = some fs) (hl : fsLookup fs name = some data) :
    spiffsjs_file_size st name = (data.length : Int) := by
  unfold spiffsjs_file_size
  rw [hm, hfs]
  simp only [Bool.not_true, Bool.false_eq_true, if_false]
  rw [hl]

theorem spiffsjs_read_file_eq (st : SpiffsState) (fs : List SpiffsFile)
    (name data : List Nat) (buffer_len : Nat) (hm : st.isMounted = true)
    (hfs : mountedFiles st = some fs) (hl : fsLookup fs name = some data)
    (hb0 : buffer_len ≠ 0) (hble : data.length ≤ buffer_len) :
    spiffsjs_read_file st name buffer_len = ((data.length : Int), some data) := by
  unfold spiffsjs_read_file
  rw [hm, hfs]
  simp only [Bool.not_true, Bool.false_eq_true, if_false]
  rw [if_neg hb0, hl]
  dsimp only
  rw [if_neg (by omega)]

theorem spiffsClientRead_eq (st : SpiffsState) (fs : List SpiffsFile)
    (name data : List Nat) (hm : st.isMounted = true)
    (hfs : mountedFiles st = some fs) (hl : fsLookup fs name = some data) :
    spiffsClientRead st name = some data := by
  unfold spiffsClientRead
  rw [spiffsjs_file_size_eq st fs name data hm hfs hl]
  by_cases h0 : data.length = 0
  · rw [if_neg (by exact_mod_cast Int.not_lt.mpr (Int.natCast_nonneg _)),
      if_pos (by exact_mod_cast h0)]
    rw [List.length_eq_zero.mp h0]
  · rw [if_neg (by exact_mod_cast Int.not_lt.mpr (Int.natCast_nonneg _)),
      if_neg (by exact_mod_cast h0)]
    have htn : ((data.length : Int)).toNat = data.length := Int.toNat_natCast _
    rw [htn, spiffsjs_read_file_eq st fs name data data.length hm hfs hl h0 le_rfl]

/-- A small test geometry: 1-byte pages, 8-byte blocks, 4 blocks. -/
def testGeom : SpiffsGeom := ⟨1, 8, 4⟩

/-- A mounted test volume with an empty object namespace. -/
def testStateEmpty : SpiffsState :=
  { storage := some (encodeImage testGeom []), pageSize := 1, blockSize := 8,
    blockCount := 4, diskReady := true, isMounted := true }

/-- A mounted test volume holding one file `a` with three data bytes. -/
def testStateOne : SpiffsState :=
  { storage := some (encodeImage testGeom [([97], [10, 20, 30])]), pageSize := 1,
    blockSize := 8, blockCount := 4, diskReady := true, isMounted := true }

/-- Claim C2: for every file name and byte sequence — the empty sequence
included, and data spanning many pages included, since the only size bound
is the capacity hypothesis `hfit` — writing the bytes under that name and
then reading that name back through the client read path returns exactly
the same byte sequence. -/
theorem spiffs_write_then_read_roundtrip (st : SpiffsState)
    (fs : List SpiffsFile) (name data : List Nat) (hm : st.isMounted = true)
    (hfs : mountedFiles st = some fs) (hwf : fsWf fs)
    (hn0 : 0 < name.length) (hn32 : name.length ≤ 32)
    (hd : data.length < 4294967296)
    (hfit : imageLen (fsUpdate fs name data) ≤ totalBytes st.geom) :
    (spiffsjs_write_file st name data).2 = 0 ∧
    spiffsClientRead (spiffsjs_write_file st name data).1 name = some data := by
  rw [spiffsjs_write_file_eq st fs name data hm hfs hn0 hn32 hfit]
  refine ⟨rfl, ?_⟩
  exact spiffsClientRead_eq _ (fsUpdate fs name data) name data hm
    (mountedFiles_encodeImage st _ (fsWf_fsUpdate fs name data hwf hn0 hn32 hd)
      hfit)
    (fsLookup_fsUpdate fs name data)

/-- Witness for the C2 theorem: nine data bytes — nine pages of the 1-byte
test geometry — written and read back on the empty test volume. -/
theorem spiffs_write_then_read_roundtrip_witness :
    (spiffsjs_write_file testStateEmpty [97] [1, 2, 3, 4, 5, 6, 7, 8, 9]).2 = 0 ∧
    spiffsClientRead
        (spiffsjs_write_file testStateEmpty [97] [1, 2, 3, 4, 5, 6, 7, 8, 9]).1
        [97] = some [1, 2, 3, 4, 5, 6, 7, 8, 9] :=
  spiffs_write_then_read_roundtrip testStateEmpty [] [97]
    [1, 2, 3, 4, 5, 6, 7, 8, 9] rfl (by decide) (by decide) (by decide)
    (by decide) (by decide) (by decide)

/-- Claim C9: a successful public write replaces the whole file: with a file
of content `oldData` already present under `name`, writing `newData` opens
with create-plus-truncate semantics, and afterwards the file holds exactly
the `newData.length` written bytes — the read returns `newData` itself, not
an append to or partial overwrite of `oldData`. -/
theorem spiffs_write_replaces_whole_file (st : SpiffsState)
    (fs : List SpiffsFile) (name oldData newData : List Nat)
    (hm : st.isMounted = true) (hfs : mountedFiles st = some fs)
    (hwf : fsWf fs) (hn0 : 0 < name.length) (hn32 : name.length ≤ 32)
    (hold : fsLookup fs name = some oldData)
    (hd : newData.length < 4294967296)
    (hfit : imageLen (fsUpdate fs name newData) ≤ totalBytes st.geom) :
    (spiffsjs_write_file st name newData).2 = 0 ∧
    spiffsjs_file_size (spiffsjs_write_file st name newData).1 name =
      (newData.length : Int) ∧
    spiffsClientRead (spiffsjs_write_file st name newData).1 name =
      some newData := by
  rw [spiffsjs_write_file_eq st fs name newData hm hfs hn0 hn32 hfit]
  have hfs2 := mountedFiles_encodeImage st (fsUpdate fs name newData)
    (fsWf_fsUpdate fs name newData hwf hn0 hn32 hd) hfit
  refine ⟨rfl, ?_, ?_⟩
  · exact spiffsjs_file_size_eq _ (fsUpdate fs name newData) name newData hm
      hfs2 (fsLookup_fsUpdate fs name newData)
  · exact spiffsClientRead_eq _ (fsUpdate fs name newData) name newData hm
      hfs2 (fsLookup_fsUpdate fs name newData)

/-- Witness for the C9 theorem: overwriting the three-byte file of the test
volume with two fresh bytes leaves exactly those two bytes. -/
theorem spiffs_write_replaces_whole_file_witness :
    (spiffsjs_write_file testStateOne [97] [5, 6]).2 = 0 ∧
    spiffsjs_file_size (spiffsjs_write_file testStateOne [97] [5, 6]).1 [97] =
      ((2 : Nat) : Int) ∧
    spiffsClientRead (spiffsjs_write_file testStateOne [97] [5, 6]).1 [97] =
      some [5, 6] :=
  spiffs_write_replaces_whole_file testStateOne [([97], [10, 20, 30])] [97]
    [10, 20, 30] [5, 6] rfl (by decide) (by decide) (by decide) (by decide)
    (by decide) (by decide) (by decide)

theorem spiffsjs_mount_decodes (st : SpiffsState) (bytes : List Nat)
    (fs : List SpiffsFile) (af : Bool) (hd : st.diskReady = true)
    (hs : st.storage = some bytes)
    (hdec : decodeImage st.geom bytes = some fs) :
    spiffsjs_mount st af = ({ st with isMounted := true }, 0) := by
  unfold spiffsjs_mount
  rw [hd, hs]
  simp only [Bool.not_true, Bool.false_eq_true, if_false]
  rw [hdec]

theorem spiffsjs_format_eq (st : SpiffsState) (bytes : List Nat)
    (hm : st.isMounted = true) (hd : st.diskReady = true)
    (hs : st.storage = some bytes) :
    spiffsjs_format st =
      ({ st with
         storage := some (List.replicate (totalBytes st.geom) 255)
         isMounted := true }, 0) := by
  unfold spiffsjs_format
  rw [hm, hs]
  simp only [Bool.not_true, Bool.false_eq_true, if_false]
  rw [spiffsjs_mount_decodes
    { st with
      storage := some (List.replicate (totalBytes st.geom) 255)
      isMounted := false }
    (List.replicate (totalBytes st.geom) 255) [] false hd rfl
    (decodeImage_replicate st.geom)]
  simp

theorem spiffsjs_list_eq (st : SpiffsState) (fs : List SpiffsFile) (blen : Nat)
    (hm : st.isMounted = true) (hfs : mountedFiles st = some fs)
    (hb0 : blen ≠ 0) (hfit : listRenderLen fs + 1 ≤ blen) :
    spiffsjs_list st blen =
      ((listRenderLen fs : Int), fs.map (fun f => (f.1, f.2.length))) := by
  unfold spiffsjs_list
  rw [hm, hfs]
  simp only [Bool.not_true, Bool.false_eq_true, if_false]
  rw [if_neg hb0]
  rw [if_pos hfit]

theorem spiffsjs_get_usage_eq (st : SpiffsState) (fs : List SpiffsFile)
    (hm : st.isMounted = true) (hfs : mountedFiles st = some fs) :
    spiffsjs_get_usage st =
      (0, (spiffsInfoTotal st.geom, spiffsInfoUsed st.geom fs,
        if spiffsInfoTotal st.geom > spiffsInfoUsed st.geom fs then
          spiffsInfoTotal st.geom - spiffsInfoUsed st.geom fs
        else 0)) := by
  unfold spiffsjs_get_usage
  rw [hm, hfs]
  simp only [Bool.not_true, Bool.false_eq_true, if_false]

theorem spiffsjs_format_spec (st : SpiffsState) (bytes : List Nat)
    (hm : st.isMounted = true) (hd : st.diskReady = true)
    (hs : st.storage = some bytes) :
    (spiffsjs_format st).2 = 0 ∧
    (spiffsjs_format st).1.storage =
      some (List.replicate (totalBytes st.geom) 255) ∧
    (spiffsjs_format st).1.isMounted = true ∧
    (spiffsjs_format st).1.diskReady = st.diskReady ∧
    (spiffsjs_format st).1.geom = st.geom ∧
    mountedFiles (spiffsjs_format st).1 = some [] := by
  rw [spiffsjs_format_eq st bytes hm hd hs]
  refine ⟨rfl, rfl, rfl, rfl, rfl, ?_⟩
  unfold mountedFiles
  exact decodeImage_replicate st.geom

/-- Claim C5: on a configured and mounted volume, formatting twice in a row
succeeds both times, after each format the volume lists zero objects, and
the capacity/used/free accounting reported after the first format is
identical to that after the second. -/
theorem spiffs_format_idempotent (st : SpiffsState) (bytes : List Nat)
    (hm : st.isMounted = true) (hd : st.diskReady = true)
    (hs : st.storage = some bytes) :
    (spiffsjs_format st).2 = 0 ∧
    (spiffsjs_format (spiffsjs_format st).1).2 = 0 ∧
    spiffsjs_list (spiffsjs_format st).1 4096 = (0, []) ∧
    spiffsjs_list (spiffsjs_format (spiffsjs_format st).1).1 4096 = (0, []) ∧
    spiffsjs_get_usage (spiffsjs_format st).1 =
      spiffsjs_get_usage (spiffsjs_format (spiffsjs_format st).1).1 := by
  obtain ⟨he1, hst1, hm1, hd1, hg1, hmf1⟩ := spiffsjs_format_spec st bytes hm hd hs
  obtain ⟨he2, hst2, hm2, hd2, hg2, hmf2⟩ := spiffsjs_format_spec
    (spiffsjs_format st).1 (List.replicate (totalBytes st.geom) 255) hm1
    (by rw [hd1, hd]) hst1
  refine ⟨he1, he2, ?_, ?_, ?_⟩
  · rw [spiffsjs_list_eq (spiffsjs_format st).1 [] 4096 hm1 hmf1 (by omega)
      (by simp [listRenderLen])]
    simp [listRenderLen]
  · rw [spiffsjs_list_eq (spiffsjs_format (spiffsjs_format st).1).1 [] 4096 hm2
      hmf2 (by omega) (by simp [listRenderLen])]
    simp [listRenderLen]
  · rw [spiffsjs_get_usage_eq (spiffsjs_format st).1 [] hm1 hmf1,
      spiffsjs_get_usage_eq (spiffsjs_format (spiffsjs_format st).1).1 [] hm2
        hmf2, hg2, hg1]

/-- Witness for the C5 theorem: formatting the one-file test volume twice. -/
theorem spiffs_format_idempotent_witness :
    (spiffsjs_format testStateOne).2 = 0 ∧
    (spiffsjs_format (spiffsjs_format testStateOne).1).2 = 0 ∧
    spiffsjs_list (spiffsjs_format testStateOne).1 4096 = (0, []) ∧
    spiffsjs_list (spiffsjs_format (spiffsjs_format testStateOne).1).1 4096 =
      (0, []) ∧
    spiffsjs_get_usage (spiffsjs_format testStateOne).1 =
      spiffsjs_get_usage (spiffsjs_format (spiffsjs_format testStateOne).1).1 :=
  spiffs_format_idempotent testStateOne
    (encodeImage testGeom [([97], [10, 20, 30])]) rfl rfl rfl

theorem spiffsjs_configure_success (st : SpiffsState) (ps bs bc fd cp : Nat)
    (hps : ps ≠ 0) (hbs : bs ≠ 0) (hbc : bc ≠ 0)
    (hge : ¬ bs < ps) (hmul : bs % ps = 0)
    (h8 : ¬ bs < ps * 8 % 4294967296)
    (hmax : ¬ bs * bc > UINT32_MAX) (hfd : fd ≠ 0) :
    spiffsjs_configure st ps bs bc fd cp =
      ({ storage := some (List.replicate (bs * bc) 255), pageSize := ps,
         blockSize := bs, blockCount := bc, diskReady := true,
         isMounted := false }, 0) := by
  unfold spiffsjs_configure
  rw [if_neg (by tauto), if_neg (by tauto), if_neg h8, if_neg hmax, if_neg hfd]

theorem spiffsjs_init_from_image_success (ps bs bc fd cp : Nat)
    (image : List Nat) (fs : List SpiffsFile)
    (hps : ps ≠ 0) (hbs : bs ≠ 0) (hbc : bc ≠ 0)
    (hge : ¬ bs < ps) (hmul : bs % ps = 0)
    (h8 : ¬ bs < ps * 8 % 4294967296)
    (hmax : ¬ bs * bc > UINT32_MAX) (hfd : fd ≠ 0)
    (hlen : image.length = bs * bc)
    (hdec : decodeImage ⟨ps, bs, bc⟩ image = some fs) :
    spiffsjs_init_from_image initState ps bs bc fd cp image =
      ({ storage := some image, pageSize := ps, blockSize := bs,
         blockCount := bc, diskReady := true, isMounted := true }, 0) := by
  unfold spiffsjs_init_from_image
  rw [spiffsjs_configure_success initState ps bs bc fd cp hps hbs hbc hge hmul
    h8 hmax hfd]
  dsimp only
  rw [if_neg (by norm_num), if_neg (by omega)]
  rw [spiffsjs_mount_decodes
    { storage := some image, pageSize := ps, blockSize := bs, blockCount := bc,
      diskReady := true, isMounted := false } image fs false rfl rfl hdec]
  dsimp only
  rw [if_neg (by norm_num)]

theorem spiffsjs_export_image_eq (st : SpiffsState) (bytes : List Nat)
    (hs : st.storage = some bytes) (h0 : bytes.length ≠ 0) :
    spiffsjs_export_image st bytes.length = ((bytes.length : Int), some bytes) := by
  unfold spiffsjs_export_image
  rw [hs]
  dsimp only
  rw [if_neg h0, if_neg (by omega)]

theorem spiffsClientRead_congr (st1 st2 : SpiffsState) (name : List Nat)
    (h1 : st1.isMounted = st2.isMounted) (h2 : st1.storage = st2.storage)
    (h3 : st1.geom = st2.geom) :
    spiffsClientRead st1 name = spiffsClientRead st2 name := by
  unfold spiffsClientRead spiffsjs_file_size spiffsjs_read_file mountedFiles
  rw [h1, h2, h3]

theorem decodeImage_length (g : SpiffsGeom) (bs : List Nat)
    (fs : List SpiffsFile) (h : decodeImage g bs = some fs) :
    bs.length = totalBytes g := by
  by_contra hne
  rw [decodeImage, if_neg hne] at h
  exact Option.noConfusion h

/-- Claim C3: exporting the raw backing image of a mounted volume and
re-initializing a filesystem from the exported bytes with the same geometry
succeeds, and afterwards every name reads back exactly what it read before
the export (in particular every file readable before is readable with
identical bytes). The geometry hypotheses are exactly the checks the volume
already passed when it was configured. -/
theorem spiffs_export_reinit_preserves_files (st : SpiffsState)
    (bytes : List Nat) (fs : List SpiffsFile) (fd cp : Nat)
    (hm : st.isMounted = true) (hs : st.storage = some bytes)
    (hdec : decodeImage st.geom bytes = some fs) (h0 : bytes.length ≠ 0)
    (hps : st.pageSize ≠ 0) (hbs : st.blockSize ≠ 0) (hbc : st.blockCount ≠ 0)
    (hge : ¬ st.blockSize < st.pageSize) (hmul : st.blockSize % st.pageSize = 0)
    (h8 : ¬ st.blockSize < st.pageSize * 8 % 4294967296)
    (hmax : ¬ st.blockSize * st.blockCount > UINT32_MAX) (hfd : fd ≠ 0) :
    (spiffsjs_export_image st bytes.length).2 = some bytes ∧
    (spiffsjs_init_from_image initState st.pageSize st.blockSize st.blockCount
        fd cp bytes).2 = 0 ∧
    ∀ name, spiffsClientRead
        (spiffsjs_init_from_image initState st.pageSize st.blockSize
          st.blockCount fd cp bytes).1 name = spiffsClientRead st name := by
  have hlen : bytes.length = totalBytes st.geom :=
    decodeImage_length st.geom bytes fs hdec
  have hinit := spiffsjs_init_from_image_success st.pageSize st.blockSize
    st.blockCount fd cp bytes fs hps hbs hbc hge hmul h8 hmax hfd hlen hdec
  refine ⟨by rw [spiffsjs_export_image_eq st bytes hs h0], by rw [hinit], ?_⟩
  intro name
  rw [hinit]
  exact spiffsClientRead_congr _ st name hm.symm hs.symm rfl

/-- Witness for the C3 theorem: export the one-file test volume, re-init
from the exported image with the same geometry, and read the file back. -/
theorem spiffs_export_reinit_preserves_files_witness :
    (spiffsjs_export_image testStateOne
        (encodeImage testGeom [([97], [10, 20, 30])]).length).2 =
      some (encodeImage testGeom [([97], [10, 20, 30])]) ∧
    (spiffsjs_init_from_image initState 1 8 4 16 64
        (encodeImage testGeom [([97], [10, 20, 30])])).2 = 0 ∧
    spiffsClientRead
        (spiffsjs_init_from_image initState 1 8 4 16 64
          (encodeImage testGeom [([97], [10, 20, 30])])).1 [97] =
      spiffsClientRead testStateOne [97] := by
  have h := spiffs_export_reinit_preserves_files testStateOne
    (encodeImage testGeom [([97], [10, 20, 30])]) [([97], [10, 20, 30])] 16 64
    rfl rfl (by decide) (by decide) (by decide) (by decide) (by decide)
    (by decide) (by decide) (by decide) (by decide) (by decide)
  exact ⟨h.1, h.2.1, h.2.2 [97]⟩
